import Mathlib

/-!
Verification of the budgetui CSV import-and-categorization core.

This file shallowly embeds the Rust sources of the repository
(`src/import/csv_import.rs`, `src/import/detect.rs`, `src/categorize/mod.rs`,
`src/ui/app.rs`, `src/models/*.rs`) as executable Lean definitions and proves
or refutes the behavioural claims of the specification against them.

Modelling conventions:
* Rust `String` is Lean `String`; character-level operations are carried out
  on `List Char` (the underlying data of a Lean string).
* `rust_decimal::Decimal` is a pair of an integer mantissa and a base-10
  scale, compared numerically through `Decimal.toRat`.
* Machine `u64` arithmetic is `Nat` arithmetic reduced modulo `2 ^ 64`.
* Fallible Rust functions returning `anyhow::Result` become `Except String`;
  the error string is the `with_context` message the source attaches.
* Rust's Unicode-aware `to_lowercase` / `trim` / `is_whitespace` are modelled
  by their ASCII restrictions (`Char.toLower`, ASCII whitespace); every
  string exercised by the claims is ASCII.
-/

namespace Budgetui

/-! ## Character and string helpers -/

/-- ASCII model of Rust `str::to_lowercase` on the character list. -/
def lowerChars (cs : List Char) : List Char :=
  cs.map Char.toLower

/-- ASCII model of Rust `str::to_lowercase`. -/
def lowerStr (s : String) : String :=
  ⟨lowerChars s.data⟩

/-- ASCII model of Rust `str::trim` on the character list. -/
def trimChars (cs : List Char) : List Char :=
  ((cs.dropWhile Char.isWhitespace).reverse.dropWhile Char.isWhitespace).reverse

/-- ASCII model of Rust `str::trim`. -/
def trimStr (s : String) : String :=
  ⟨trimChars s.data⟩

/-- Substring containment, the model of Rust `str::contains(&str)`:
`pat` occurs contiguously in `hay` (the empty pattern always matches). -/
def containsSub (hay pat : List Char) : Bool :=
  match hay with
  | [] => pat.isEmpty
  | _ :: t => pat.isPrefixOf hay || containsSub t pat

/-- Model of Rust `str::replace(target_char, "")`: remove every occurrence of
any character in `targets`. -/
def removeChars (cs : List Char) (targets : List Char) : List Char :=
  cs.filter (fun c => !(targets.contains c))

/-- Model of Rust `str::replace(t, r)` for one-character target and
one-character replacement. -/
def replaceChar (cs : List Char) (t r : Char) : List Char :=
  cs.map (fun c => if c = t then r else c)

/-- Numeric value of a list of decimal digit characters. -/
def digitsToNat (ds : List Char) : Nat :=
  ds.foldl (fun acc c => acc * 10 + (c.toNat - '0'.toNat)) 0

/-! ## Model of `rust_decimal::Decimal`

`Decimal` is an exact base-10 fixed-point number: an integer mantissa
together with a scale (number of fractional digits).  Its numeric value is
`mantissa / 10 ^ scale`; equality, negation, absolute value and `Display`
below mirror the crate. -/

/-- Model of `rust_decimal::Decimal`. -/
structure Decimal where
  mantissa : Int
  scale : Nat
deriving DecidableEq, Repr

/-- Numeric value of a `Decimal`. -/
def Decimal.toRat (d : Decimal) : ℚ :=
  (d.mantissa : ℚ) / (10 : ℚ) ^ d.scale

/-- `Decimal::ZERO`. -/
def Decimal.zero : Decimal := ⟨0, 0⟩

/-- Unary negation of a `Decimal` (mantissa negation, scale kept). -/
instance : Neg Decimal := ⟨fun d => ⟨-d.mantissa, d.scale⟩⟩

/-- `Decimal::abs` (absolute value of the mantissa, scale kept). -/
def Decimal.abs (d : Decimal) : Decimal :=
  ⟨(d.mantissa.natAbs : Int), d.scale⟩

/-- Model of `Decimal::from_str`: an optional sign, integer digits, an
optional single decimal point with fraction digits, at least one digit in
total, nothing else.  The scale is the number of fraction digits. -/
def decimalFromStr (s : String) : Option Decimal :=
  let cs := s.data
  let signed : Bool × List Char :=
    match cs with
    | '-' :: t => (true, t)
    | '+' :: t => (false, t)
    | _ => (false, cs)
  let neg := signed.1
  let ipSplit := signed.2.span Char.isDigit
  let mk (ip fp : List Char) : Decimal :=
    let mval : Int := (digitsToNat (ip ++ fp) : Int)
    ⟨if neg then -mval else mval, fp.length⟩
  match ipSplit.2 with
  | [] => if ipSplit.1.isEmpty then none else some (mk ipSplit.1 [])
  | '.' :: rest2 =>
    let fpSplit := rest2.span Char.isDigit
    if fpSplit.2.isEmpty && !(ipSplit.1.isEmpty && fpSplit.1.isEmpty) then
      some (mk ipSplit.1 fpSplit.1)
    else
      none
  | _ => none

/-- `Display` for `Decimal` (model of the crate's `to_string`): the mantissa
digits with a decimal point inserted `scale` places from the right, the
digit string zero-padded on the left so at least one digit precedes the
point; a leading minus sign for negative mantissas. -/
def Decimal.toDisplay (d : Decimal) : String :=
  let digits := Nat.toDigits 10 d.mantissa.natAbs
  let sign : List Char := if d.mantissa < 0 then ['-'] else []
  if d.scale = 0 then
    ⟨sign ++ digits⟩
  else
    let padded := List.replicate (d.scale + 1 - digits.length) '0' ++ digits
    let intPart := padded.take (padded.length - d.scale)
    let fracPart := padded.drop (padded.length - d.scale)
    ⟨sign ++ intPart ++ '.' :: fracPart⟩

/-! ## Model of the third-party `regex` crate

The repository delegates regular-expression compilation and matching to the
external `regex` crate, which is not part of this repository.  The crate is
modelled on the fragment the sources and the claims exercise: patterns that
are free of regex metacharacters compile to literal matchers, and a literal
matcher matches a string exactly when the pattern occurs in it as a
(case-sensitive) substring — which is the crate's documented behaviour for
such patterns.  A pattern containing a metacharacter (in particular the
ill-formed pattern `"[invalid"`, whose unclosed class makes `Regex::new`
fail) is outside the literal fragment and is mapped to compilation failure. -/

/-- Regex metacharacters: a pattern containing none of these is a literal. -/
def regexMeta : List Char :=
  ['[', ']', '(', ')', '\x7b', '\x7d', '*', '+', '?', '|', '^', '$', '.', '\\']

/-- A compiled literal regular expression (model of `regex::Regex`). -/
structure RegexLit where
  pat : List Char
deriving DecidableEq, Repr

/-- Model of `regex::Regex::new(...).ok()`: literal patterns compile,
everything else (including the invalid `"[invalid"`) yields `none`. -/
def regexNew (pattern : String) : Option RegexLit :=
  if pattern.data.all (fun c => !(regexMeta.contains c)) then
    some ⟨pattern.data⟩
  else
    none

/-- Model of `regex::Regex::is_match` for a literal pattern:
case-sensitive substring search. -/
def RegexLit.isMatch (re : RegexLit) (s : String) : Bool :=
  containsSub s.data re.pat

/-! ## `src/models/import_rule.rs` -/

/-- `ImportRule` (src/models/import_rule.rs). -/
structure ImportRule where
  id : Option Int
  pattern : String
  category_id : Int
  is_regex : Bool
  priority : Int
deriving DecidableEq, Repr

/-- `ImportRule::new_contains` (src/models/import_rule.rs). -/
def ImportRule.new_contains (pattern : String) (category_id : Int) : ImportRule :=
  { id := none, pattern := pattern, category_id := category_id
    is_regex := false, priority := 0 }

/-- `ImportRule::new_regex` (src/models/import_rule.rs). -/
def ImportRule.new_regex (pattern : String) (category_id : Int) : ImportRule :=
  { id := none, pattern := pattern, category_id := category_id
    is_regex := true, priority := 0 }

/-! ## `src/categorize/mod.rs` -/

/-- `CompiledRule` (src/categorize/mod.rs). -/
structure CompiledRule where
  pattern : String
  regex : Option RegexLit
  category_id : Int
  is_regex : Bool
deriving DecidableEq, Repr

/-- `Categorizer` (src/categorize/mod.rs). -/
structure Categorizer where
  rules : List CompiledRule
deriving DecidableEq, Repr

/-- `Categorizer::new` (src/categorize/mod.rs, lines 18-37).  Note: the
source returns a bare `Self`; no list of failed patterns accompanies it. -/
def Categorizer.new (rules : List ImportRule) : Categorizer :=
  ⟨rules.map (fun r =>
    { pattern := lowerStr r.pattern
      regex := if r.is_regex then regexNew r.pattern else none
      category_id := r.category_id
      is_regex := r.is_regex })⟩

/-- The `matched` expression of the loop body of `Categorizer::categorize`
(src/categorize/mod.rs, lines 43-49), given the pre-lowercased description
and the original-case description. -/
def CompiledRule.matchedOn (rule : CompiledRule) (descLower description : String) : Bool :=
  if rule.is_regex then
    match rule.regex with
    | some re => re.isMatch description
    | none => false
  else
    containsSub descLower.data rule.pattern.data

/-- The rule loop of `Categorizer::categorize` (src/categorize/mod.rs,
lines 42-54). -/
def categorizeLoop (rules : List CompiledRule) (descLower description : String) : Option Int :=
  match rules with
  | [] => none
  | rule :: rest =>
    if rule.matchedOn descLower description then
      some rule.category_id
    else
      categorizeLoop rest descLower description

/-- `Categorizer::categorize` (src/categorize/mod.rs, lines 39-57). -/
def Categorizer.categorize (c : Categorizer) (description : String) : Option Int :=
  let descLower := lowerStr description
  categorizeLoop c.rules descLower description

/-! ## Model of `chrono::NaiveDate` and `parse_from_str`

Only the strptime directives the repository uses (`%Y`, `%y`, `%m`, `%d`
with literal separator characters) are modelled; a format string containing
any other directive is outside the model and never parses.  As in chrono, a
numeric field reads greedily up to its maximum width (4 digits for `%Y`,
2 for `%y`/`%m`/`%d`, at least one digit each), the whole input must be
consumed, all three of year/month/day must be supplied, and the resulting
calendar date must exist (month 1-12, day bounded by the month length with
leap years). -/

/-- A calendar date (model of `chrono::NaiveDate`). -/
structure Date where
  year : Nat
  month : Nat
  day : Nat
deriving DecidableEq, Repr

/-- Gregorian leap-year test. -/
def isLeapYear (y : Nat) : Bool :=
  (y % 4 = 0 && y % 100 ≠ 0) || y % 400 = 0

/-- Length of a month in a given year. -/
def daysInMonth (y m : Nat) : Nat :=
  if m = 2 then (if isLeapYear y then 29 else 28)
  else if m = 4 || m = 6 || m = 9 || m = 11 then 30
  else 31

/-- Does `(y, m, d)` denote an existing calendar date? -/
def validYmd (y m d : Nat) : Bool :=
  1 ≤ m && m ≤ 12 && 1 ≤ d && d ≤ daysInMonth y m

/-- Read up to `n` leading decimal digits. -/
def takeDigitsUpTo (n : Nat) (cs : List Char) : List Char × List Char :=
  match n, cs with
  | 0, cs => ([], cs)
  | _ + 1, [] => ([], [])
  | n + 1, c :: t =>
    if c.isDigit then
      let r := takeDigitsUpTo n t
      (c :: r.1, r.2)
    else
      ([], c :: t)

/-- Read a numeric strptime field of maximum width `w` (at least one digit). -/
def parseNumField (w : Nat) (cs : List Char) : Option (Nat × List Char) :=
  let r := takeDigitsUpTo w cs
  if r.1.isEmpty then none else some (digitsToNat r.1, r.2)

/-- The strptime walk: consume the format and the input in lockstep,
accumulating the year/month/day fields. -/
def strptimeGo : List Char → List Char → Option Nat → Option Nat → Option Nat →
    Option (Option Nat × Option Nat × Option Nat)
  | [], cs, y, m, d => if cs.isEmpty then some (y, m, d) else none
  | ['%'], _, _, _, _ => none
  | '%' :: f :: fr, cs, y, m, d =>
    match f with
    | 'Y' =>
      match parseNumField 4 cs with
      | some (v, r) => strptimeGo fr r (some v) m d
      | none => none
    | 'y' =>
      match parseNumField 2 cs with
      | some (v, r) => strptimeGo fr r (some (if v ≤ 68 then 2000 + v else 1900 + v)) m d
      | none => none
    | 'm' =>
      match parseNumField 2 cs with
      | some (v, r) => strptimeGo fr r y (some v) d
      | none => none
    | 'd' =>
      match parseNumField 2 cs with
      | some (v, r) => strptimeGo fr r y m (some v)
      | none => none
    | _ => none
  | lc :: fr, c :: cr, y, m, d => if c = lc then strptimeGo fr cr y m d else none
  | _ :: _, [], _, _, _ => none

/-- Model of `chrono::NaiveDate::parse_from_str`. -/
def naiveDateParse (s fmt : String) : Option Date :=
  match strptimeGo fmt.data s.data none none none with
  | some (some y, some m, some d) => if validYmd y m d then some ⟨y, m, d⟩ else none
  | _ => none

/-- Decimal digit rendering of `n`, zero-padded on the left to width `w`. -/
def padZeros (n w : Nat) : List Char :=
  let ds := Nat.toDigits 10 n
  List.replicate (w - ds.length) '0' ++ ds

/-- `date.format("%Y-%m-%d")` as used by `CsvImporter::parse`. -/
def Date.formatIso (dt : Date) : String :=
  ⟨padZeros dt.year 4 ++ '-' :: (padZeros dt.month 2 ++ '-' :: padZeros dt.day 2)⟩

/-! ## `src/models/transaction.rs` -/

/-- `Transaction` (src/models/transaction.rs). -/
structure Transaction where
  id : Option Int
  account_id : Int
  date : String
  description : String
  original_description : String
  amount : Decimal
  category_id : Option Int
  notes : String
  is_transfer : Bool
  import_hash : String
  created_at : String
deriving DecidableEq, Repr

/-! ## `src/import/csv_import.rs` -/

/-- `CsvProfile` (src/import/csv_import.rs, lines 9-21).  The
`is_credit_account` field is the one declared by the specification's data
model and initialised by every constructor in `src/import/detect.rs`; the
struct declaration in `csv_import.rs` omits it and the row parser never
reads it. -/
structure CsvProfile where
  name : String
  date_column : Nat
  description_column : Nat
  amount_column : Option Nat
  debit_column : Option Nat
  credit_column : Option Nat
  date_format : String
  has_header : Bool
  skip_rows : Nat
  negate_amounts : Bool
  is_credit_account : Bool
deriving DecidableEq, Repr

/-- `CsvProfile::default` (src/import/csv_import.rs, lines 23-38). -/
def CsvProfile.default : CsvProfile :=
  { name := "Custom"
    date_column := 0
    description_column := 1
    amount_column := some 2
    debit_column := none
    credit_column := none
    date_format := "%m/%d/%Y"
    has_header := true
    skip_rows := 0
    negate_amounts := false
    is_credit_account := false }

/-- `parse_date` (src/import/csv_import.rs, lines 134-146): try the
profile's format, then the fixed fallback list in order. -/
def fallbackFormats : List String :=
  ["%m/%d/%Y", "%Y-%m-%d", "%m-%d-%Y", "%m/%d/%y", "%d/%m/%Y"]

/-- The fallback loop of `parse_date` (src/import/csv_import.rs,
lines 140-144). -/
def tryFallbacks (s : String) : List String → Option Date
  | [] => none
  | f :: rest =>
    match naiveDateParse s f with
    | some d => some d
    | none => tryFallbacks s rest

/-- `parse_date` (src/import/csv_import.rs, lines 134-146). -/
def parse_date (s fmt : String) : Except String Date :=
  match naiveDateParse s fmt with
  | some d => .ok d
  | none =>
    match tryFallbacks s fallbackFormats with
    | some d => .ok d
    | none => .error ("Could not parse date: " ++ s)

/-- `parse_decimal` (src/import/csv_import.rs, lines 184-197): strip `$`
and `,`, turn `(` into `-` and drop `)`, trim; an empty result is exact
zero; otherwise `Decimal::from_str`, retried with `"` characters removed. -/
def parse_decimal (s : String) : Except String Decimal :=
  let cleaned : List Char :=
    trimChars (removeChars (replaceChar (removeChars s.data ['$', ',']) '(' '-') [')'])
  if cleaned.isEmpty then
    .ok Decimal.zero
  else
    match decimalFromStr ⟨cleaned⟩ with
    | some d => .ok d
    | none =>
      match decimalFromStr ⟨removeChars cleaned ['"']⟩ with
      | some d => .ok d
      | none => .error ("Failed to parse '" ++ s ++ "' as decimal")

/-- `parse_amount` (src/import/csv_import.rs, lines 148-182). -/
def parse_amount (row : List String) (profile : CsvProfile) : Except String Decimal := do
  let amount ← match profile.amount_column with
    | some amt_col =>
      let raw := ((row.get? amt_col).map trimStr).getD ""
      parse_decimal raw
    | none =>
      let debit := ((profile.debit_column.bind (fun c => row.get? c)).map trimStr).getD ""
      let credit := ((profile.credit_column.bind (fun c => row.get? c)).map trimStr).getD ""
      if !debit.isEmpty then
        (parse_decimal debit).map (fun v => -v.abs)
      else if !credit.isEmpty then
        (parse_decimal credit).map Decimal.abs
      else
        pure Decimal.zero
  if profile.negate_amounts then
    pure (-amount)
  else
    pure amount

/-- UTF-8 encoding of one character (Rust `str::as_bytes`, per character). -/
def utf8Bytes (c : Char) : List Nat :=
  let n := c.toNat
  if n < 0x80 then [n]
  else if n < 0x800 then
    [0xC0 ||| (n >>> 6), 0x80 ||| (n &&& 0x3F)]
  else if n < 0x10000 then
    [0xE0 ||| (n >>> 12), 0x80 ||| ((n >>> 6) &&& 0x3F), 0x80 ||| (n &&& 0x3F)]
  else
    [0xF0 ||| (n >>> 18), 0x80 ||| ((n >>> 12) &&& 0x3F),
     0x80 ||| ((n >>> 6) &&& 0x3F), 0x80 ||| (n &&& 0x3F)]

/-- UTF-8 bytes of a string (Rust `str::as_bytes`). -/
def strBytes (s : String) : List Nat :=
  s.data.foldr (fun c acc => utf8Bytes c ++ acc) []

/-- `fnv1a` (src/import/csv_import.rs, lines 208-215): 64-bit FNV-1a with
offset basis `0xcbf29ce484222325` and prime `0x100000001b3`, wrapping
multiplication modelled as reduction modulo `2 ^ 64`. -/
def fnv1a (data : List Nat) : Nat :=
  data.foldl (fun hash byte => ((hash ^^^ byte) * 0x100000001b3) % 2 ^ 64)
    0xcbf29ce484222325

/-- Lowercase 16-hex-digit rendering of a 64-bit value
(Rust `format!("{hash:016x}")`). -/
def toHex16 (n : Nat) : String :=
  let ds := Nat.toDigits 16 n
  ⟨List.replicate (16 - ds.length) '0' ++ ds⟩

/-- `compute_hash` (src/import/csv_import.rs, lines 202-206).  Note the
source hashes only `date`, `description` and the displayed `amount` — the
account id and the row index are not part of the input. -/
def compute_hash (date description : String) (amount : Decimal) : String :=
  let input := date ++ "|" ++ description ++ "|" ++ amount.toDisplay
  toHex16 (fnv1a (strBytes input))

/-- The row loop of `CsvImporter::parse` (src/import/csv_import.rs,
lines 92-128), processing the rows from index `i` onward; `rows.iter()
.enumerate().skip(profile.skip_rows)` is rendered as skipping any row whose
index is below `profile.skip_rows`.  Errors carry the `with_context`
message, which embeds the 1-based row number `i + 1`. -/
def parseRows (profile : CsvProfile) (account_id : Int) (now : String) :
    Nat → List (List String) → Except String (List Transaction)
  | _, [] => .ok []
  | i, row :: rest =>
    if i < profile.skip_rows then
      parseRows profile account_id now (i + 1) rest
    else
      let date_str := ((row.get? profile.date_column).map trimStr).getD ""
      if date_str.isEmpty then
        parseRows profile account_id now (i + 1) rest
      else
        match parse_date date_str profile.date_format with
        | .error _ =>
          .error ("Row " ++ toString (i + 1) ++ ": failed to parse date '" ++ date_str ++ "'")
        | .ok date =>
          let description := ((row.get? profile.description_column).map trimStr).getD ""
          match parse_amount row profile with
          | .error _ => .error ("Row " ++ toString (i + 1) ++ ": failed to parse amount")
          | .ok amount =>
            let hash := compute_hash date_str description amount
            let txn : Transaction :=
              { id := none
                account_id := account_id
                date := date.formatIso
                description := description
                original_description := description
                amount := amount
                category_id := none
                notes := ""
                is_transfer := false
                import_hash := hash
                created_at := now }
            (parseRows profile account_id now (i + 1) rest).map (fun ts => txn :: ts)

/-- `CsvImporter::parse` (src/import/csv_import.rs, lines 84-131).  `now`
stands for the wall-clock timestamp `chrono::Utc::now().to_rfc3339()`. -/
def CsvImporter.parse (rows : List (List String)) (profile : CsvProfile)
    (account_id : Int) (now : String) : Except String (List Transaction) :=
  parseRows profile account_id now 0 rows

/-- The per-field header test of `CsvImporter::preview` (src/import/
csv_import.rs, lines 63-69): a field looks like a header when it parses
neither as a decimal (after removing `$` and `,`) nor as a `%m/%d/%Y` or
`%Y-%m-%d` date. -/
def looksLikeHeaderField (field : String) : Bool :=
  let trimmed := trimStr field
  (decimalFromStr ⟨trimChars (removeChars trimmed.data ['$', ','])⟩).isNone
    && (naiveDateParse trimmed "%m/%d/%Y").isNone
    && (naiveDateParse trimmed "%Y-%m-%d").isNone

/-- `CsvImporter::preview` (src/import/csv_import.rs, lines 44-81), starting
from the list of records the CSV reader produced (file access and RFC-4180
record splitting live in the external `csv` crate; a record read from a
non-empty line always has at least one field). -/
def CsvImporter.preview (all_rows : List (List String)) :
    Except String (List String × List (List String)) :=
  match all_rows with
  | [] => .error "CSV file is empty"
  | first_row :: rest =>
    if first_row.all looksLikeHeaderField then
      .ok (first_row, rest)
    else
      .ok ((List.range first_row.length).map (fun i => "Column " ++ toString (i + 1)),
        first_row :: rest)

/-! ## `src/import/detect.rs` -/

/-- `col_index` (src/import/detect.rs, lines 212-214). -/
def col_index (headers : List String) (nm : String) : Option Nat :=
  headers.findIdx? (· = nm)

/-- `detect_bank_format` (src/import/detect.rs, lines 5-210). -/
def detect_bank_format (headers first_row : List String) : Option CsvProfile :=
  let h := headers.map (fun s => trimStr (lowerStr s))
  if headers.isEmpty && first_row.length = 5
      && ((first_row.get? 2).map trimStr == some "*") then
    some { name := "Wells Fargo", date_column := 0, description_column := 4
           amount_column := some 1, debit_column := none, credit_column := none
           date_format := "%m/%d/%Y", has_header := false, skip_rows := 0
           negate_amounts := false, is_credit_account := false }
  else if h.contains "card member" then
    some { name := "American Express", date_column := (col_index h "date").getD 0
           description_column := (col_index h "description").getD 1
           amount_column := col_index h "amount", debit_column := none
           credit_column := none, date_format := "%m/%d/%Y", has_header := true
           skip_rows := 0, negate_amounts := true, is_credit_account := true }
  else if h.contains "reference number" && h.contains "address" then
    some { name := "Bank of America Credit Card"
           date_column := (col_index h "posted date").getD 0
           description_column := (col_index h "payee").getD 2
           amount_column := col_index h "amount", debit_column := none
           credit_column := none, date_format := "%m/%d/%Y", has_header := true
           skip_rows := 0, negate_amounts := false, is_credit_account := true }
  else if h.any (fun s => containsSub s.data "running bal".data) then
    some { name := "Bank of America Checking"
           date_column := (col_index h "date").getD 0
           description_column := (col_index h "description").getD 1
           amount_column := col_index h "amount", debit_column := none
           credit_column := none, date_format := "%m/%d/%Y", has_header := true
           skip_rows := 0, negate_amounts := false, is_credit_account := false }
  else if h.contains "original description" then
    some { name := "USAA", date_column := (col_index h "date").getD 0
           description_column := (col_index h "description").getD 1
           amount_column := col_index h "amount", debit_column := none
           credit_column := none, date_format := "%m/%d/%Y", has_header := true
           skip_rows := 0, negate_amounts := false, is_credit_account := false }
  else if h.head? == some "status" && h.contains "debit" && h.contains "credit" then
    some { name := "Citi", date_column := (col_index h "date").getD 1
           description_column := (col_index h "description").getD 2
           amount_column := none, debit_column := col_index h "debit"
           credit_column := col_index h "credit", date_format := "%m/%d/%Y"
           has_header := true, skip_rows := 0, negate_amounts := false
           is_credit_account := true }
  else if h.contains "card no." then
    some { name := "Capital One Credit Card"
           date_column := (col_index h "transaction date").getD 0
           description_column := (col_index h "description").getD 3
           amount_column := none, debit_column := col_index h "debit"
           credit_column := col_index h "credit", date_format := "%Y-%m-%d"
           has_header := true, skip_rows := 0, negate_amounts := false
           is_credit_account := true }
  else if h.head? == some "account number" && h.contains "transaction amount" then
    some { name := "Capital One Checking"
           date_column := (col_index h "transaction date").getD 1
           description_column := (col_index h "transaction description").getD 4
           amount_column := col_index h "transaction amount", debit_column := none
           credit_column := none, date_format := "%m/%d/%Y", has_header := true
           skip_rows := 0, negate_amounts := false, is_credit_account := false }
  else if h.any (fun s =>
      containsSub s.data "trans. date".data || containsSub s.data "trans.date".data) then
    some { name := "Discover", date_column := 0
           description_column := (col_index h "description").getD 2
           amount_column := col_index h "amount", debit_column := none
           credit_column := none, date_format := "%m/%d/%Y", has_header := true
           skip_rows := 0, negate_amounts := false, is_credit_account := true }
  else if h.contains "details" && h.any (fun s => containsSub s.data "check or slip".data) then
    some { name := "Chase Checking", date_column := (col_index h "posting date").getD 1
           description_column := (col_index h "description").getD 2
           amount_column := col_index h "amount", debit_column := none
           credit_column := none, date_format := "%m/%d/%Y", has_header := true
           skip_rows := 0, negate_amounts := false, is_credit_account := false }
  else if h.contains "transaction date" && h.contains "post date" && h.contains "type" then
    some { name := "Chase Credit Card"
           date_column := (col_index h "transaction date").getD 0
           description_column := (col_index h "description").getD 2
           amount_column := col_index h "amount", debit_column := none
           credit_column := none, date_format := "%m/%d/%Y", has_header := true
           skip_rows := 0, negate_amounts := false, is_credit_account := true }
  else
    none

/-! ## Wizard state helpers from `src/ui/app.rs` -/

/-- Association-list lookup, the model of `HashMap::get` for the
string-keyed count map of `prepare_categorize_step`. -/
def assocFind (counts : List (String × Nat)) (d : String) : Option Nat :=
  match counts with
  | [] => none
  | (k, v) :: rest => if k = d then some v else assocFind rest d

/-- Association-list update of an existing key (model of `*entry += 1`). -/
def assocSet (counts : List (String × Nat)) (d : String) (v : Nat) :
    List (String × Nat) :=
  match counts with
  | [] => []
  | (k, w) :: rest => if k = d then (k, v) :: rest else (k, w) :: assocSet rest d v

/-- The loop body of `App::prepare_categorize_step` (src/ui/app.rs,
lines 494-521): for an uncategorized transaction, bump its description's
count, recording the description in `order` on first sight. -/
def collectStep (acc : List (String × Nat) × List String) (t : Transaction) :
    List (String × Nat) × List String :=
  if t.category_id = none then
    match assocFind acc.1 t.original_description with
    | none => (acc.1 ++ [(t.original_description, 1)], acc.2 ++ [t.original_description])
    | some k => (assocSet acc.1 t.original_description (k + 1), acc.2)
  else
    acc

/-- `App::prepare_categorize_step` (src/ui/app.rs, lines 494-521), reduced
to its data content: the `(description, count)` list it stores in
`import_cat_descriptions`.  The hash map is modelled as an association
list, faithful because the map is only read through its keys. -/
def prepare_categorize_step (txns : List Transaction) : List (String × Nat) :=
  let st := txns.foldl collectStep ([], [])
  st.2.map (fun desc => (desc, (assocFind st.1 desc).getD 1))

/-- The boolean `prepare_categorize_step` returns (`!self
.import_cat_descriptions.is_empty()`): whether the categorize step should
be entered at all. -/
def prepareEnters (txns : List Transaction) : Bool :=
  !(prepare_categorize_step txns).isEmpty

/-- `App::apply_category_to_current` (src/ui/app.rs, lines 525-534): given
the wizard description list and cursor, set `category_id` on every batch
transaction whose `original_description` equals the current description and
whose `category_id` is still unset. -/
def apply_category_to_current (descs : List (String × Nat)) (idx : Nat)
    (category_id : Int) (txns : List Transaction) : List Transaction :=
  match descs.get? idx with
  | none => txns
  | some (desc, _) =>
    txns.map (fun t =>
      if t.original_description = desc ∧ t.category_id = none then
        { t with category_id := some category_id }
      else
        t)

/-- Specification-side description of the wizard list (from the spec's
words, for comparison with `prepare_categorize_step`): the distinct
elements of `l` in first-seen order. -/
def firstSeen : List String → List String
  | [] => []
  | d :: rest => d :: firstSeen (rest.filter (fun x => x ≠ d))
termination_by l => l.length
decreasing_by
  simp only [List.length_cons]
  exact Nat.lt_succ_of_le (List.length_filter_le _ _)

/-- Specification-side count table: each first-seen description of `l`
paired with its number of occurrences in `l`. -/
def countsOf (l : List String) : List (String × Nat) :=
  (firstSeen l).map (fun d => (d, l.count d))

/-- The action of `collectStep` on the description of an uncategorized
transaction, as a function of the description alone. -/
def stringStep (acc : List (String × Nat) × List String) (d : String) :
    List (String × Nat) × List String :=
  match assocFind acc.1 d with
  | none => (acc.1 ++ [(d, 1)], acc.2 ++ [d])
  | some k => (assocSet acc.1 d (k + 1), acc.2)

/-- A concrete imported-transaction fixture used by witness theorems. -/
def demoTxn (odesc : String) (cat : Option Int) : Transaction :=
  { id := none, account_id := 1, date := "2024-01-15", description := odesc
    original_description := odesc, amount := ⟨-450, 2⟩, category_id := cat
    notes := "", is_transfer := false, import_hash := "4a56b400b0f9cdde"
    created_at := "now" }

/-! ## Shared lemmas -/

/-- Chain step for walking the else-ladder of `detect_bank_format`: if the
current branch's profile is not named Wells Fargo and the rest of the
ladder cannot produce a Wells Fargo profile, neither can the whole `ite`. -/
lemma ite_some_name {c : Prop} [Decidable c] {a : CsvProfile} {rest : Option CsvProfile}
    {p : CsvProfile} (h : (if c then some a else rest) = some p)
    (ha : a.name ≠ "Wells Fargo")
    (hrest : rest = some p → p.name ≠ "Wells Fargo") :
    p.name ≠ "Wells Fargo" := by
  by_cases hc : c
  · rw [if_pos hc] at h
    cases h
    exact ha
  · rw [if_neg hc] at h
    exact hrest h

/-- With a non-empty header list, `detect_bank_format` can never return the
Wells Fargo profile: its fingerprint requires `headers.is_empty()`, and
every other fingerprint carries a different name. -/
lemma detect_not_wellsfargo (headers first_row : List String)
    (hne : headers ≠ []) (p : CsvProfile)
    (h : detect_bank_format headers first_row = some p) :
    p.name ≠ "Wells Fargo" := by
  have hE : headers.isEmpty = false := by
    cases headers with
    | nil => exact absurd rfl hne
    | cons a t => rfl
  simp only [detect_bank_format] at h
  rw [if_neg (by simp [hE])] at h
  exact ite_some_name h (by simp) (fun h => ite_some_name h (by simp)
    (fun h => ite_some_name h (by simp) (fun h => ite_some_name h (by simp)
    (fun h => ite_some_name h (by simp) (fun h => ite_some_name h (by simp)
    (fun h => ite_some_name h (by simp) (fun h => ite_some_name h (by simp)
    (fun h => ite_some_name h (by simp) (fun h => ite_some_name h (by simp)
    (fun h => by cases h))))))))))

/-- The categorize loop returns the category of the first rule, in list
order, whose `matchedOn` test fires. -/
lemma categorizeLoop_eq_find (rs : List CompiledRule) (dl d : String) :
    categorizeLoop rs dl d
      = (rs.find? (fun r => r.matchedOn dl d)).map (fun r => r.category_id) := by
  induction rs with
  | nil => rfl
  | cons r rest ih =>
    by_cases h : r.matchedOn dl d = true
    · simp [categorizeLoop, List.find?_cons_of_pos, h]
    · simp only [Bool.not_eq_true] at h
      simp [categorizeLoop, List.find?_cons_of_neg, h, ih]

/-! ## Claims -/

/-- C1 (code bug evidence): `compute_hash` reads only the date string, the
description and the amount, so two textually identical rows at different
row positions in the same file receive the same `import_hash`, and so does
the same row imported under a different account id — contradicting the
claimed `(account_id, row_index, date_string, description, amount)` hash
input (which the repository's own tests `test_hash_different_rows_same_data`
and `test_hash_different_accounts_same_data` demand by calling
`compute_hash` with five arguments). -/
theorem c1_compute_hash_ignores_row_and_account :
    (CsvImporter.parse
        [["01/15/2024", "Coffee", "-4.50"], ["01/15/2024", "Coffee", "-4.50"]]
        CsvProfile.default 1 "now").map (fun ts => ts.map (fun t => t.import_hash))
      = .ok ["4a56b400b0f9cdde", "4a56b400b0f9cdde"] ∧
    (CsvImporter.parse [["01/15/2024", "Coffee", "-4.50"]]
        CsvProfile.default 2 "now").map (fun ts => ts.map (fun t => t.import_hash))
      = .ok ["4a56b400b0f9cdde"] ∧
    compute_hash "01/15/2024" "Coffee" ⟨-450, 2⟩ = "4a56b400b0f9cdde" :=
  ⟨rfl, rfl, rfl⟩

/-- C2 (code bug evidence): `contains` rules match case-insensitively, but a
`regex` rule is compiled with `Regex::new` and matched against the
original-case description with no case-insensitivity flag, so the regex
rule `"STARBUCKS"` matches `"STARBUCKS COFFEE"` but neither
`"starbucks coffee"` nor `"Starbucks Coffee"` — contradicting the claimed
case-insensitive regex matching (which the repository's own test
`test_categorize_regex_case_insensitive` asserts). -/
theorem c2_regex_rule_is_case_sensitive :
    ((Categorizer.new [ImportRule.new_contains "STARBUCKS" 1]).categorize
        "STARBUCKS COFFEE" = some 1 ∧
      (Categorizer.new [ImportRule.new_contains "STARBUCKS" 1]).categorize
        "starbucks coffee" = some 1 ∧
      (Categorizer.new [ImportRule.new_contains "STARBUCKS" 1]).categorize
        "Starbucks Coffee" = some 1) ∧
    ((Categorizer.new [ImportRule.new_regex "STARBUCKS" 1]).categorize
        "STARBUCKS COFFEE" = some 1 ∧
      (Categorizer.new [ImportRule.new_regex "STARBUCKS" 1]).categorize
        "starbucks coffee" = none ∧
      (Categorizer.new [ImportRule.new_regex "STARBUCKS" 1]).categorize
        "Starbucks Coffee" = none) :=
  ⟨⟨rfl, rfl, rfl⟩, ⟨rfl, rfl, rfl⟩⟩

/-- C3 (code bug evidence): a rule whose pattern fails to compile as a
regular expression is inert — it never matches any description — and
construction still yields a usable categorizer.  The claimed warning list,
however, does not exist in the code: `Categorizer::new` returns a bare
`Self` (the Lean embedding's type `List ImportRule → Categorizer` mirrors
this), even though both call sites in `src/run/cli.rs` and
`src/run/tui.rs` destructure its result as `(categorizer, bad_patterns)`. -/
theorem c3_invalid_regex_rule_is_inert :
    ∀ (d : String),
      (Categorizer.new [ImportRule.new_regex "[invalid" 1]).categorize d = none :=
  fun _ => rfl

/-- C4: `categorize` applies the compiled rules in exactly the order
supplied at construction and stops at the first match (it returns the
category of the first rule `List.find?` locates), and on the rule list
`["shop" → 1, "coffee shop" → 2]` the description `"Coffee Shop"`
categorizes as `1`, not `2`. -/
theorem c4_first_match_wins :
    (∀ (rules : List ImportRule) (d : String),
      (Categorizer.new rules).categorize d
        = (((Categorizer.new rules).rules.find?
              (fun r => r.matchedOn (lowerStr d) d)).map (fun r => r.category_id))) ∧
    (Categorizer.new [ImportRule.new_contains "shop" 1,
        ImportRule.new_contains "coffee shop" 2]).categorize "Coffee Shop" = some 1 :=
  ⟨fun _ d => categorizeLoop_eq_find _ (lowerStr d) d, rfl⟩

/-- C5: the amount conventions — `"$1,234.56"` parses to exactly `1234.56`;
`"(500.00)"` to exactly `-500`; the empty string to exact zero, not an
error; with separate columns a non-blank debit value yields `-abs(value)`
and a non-blank credit value (debit blank) yields `+abs(value)`; both
blank yields zero; and `negate_amounts` flips the sign after column
resolution. -/
theorem c5_amount_parsing_conventions :
    (parse_decimal "$1,234.56" = .ok ⟨123456, 2⟩ ∧
      Decimal.toRat ⟨123456, 2⟩ = 1234.56) ∧
    (parse_decimal "(500.00)" = .ok ⟨-50000, 2⟩ ∧
      Decimal.toRat ⟨-50000, 2⟩ = -500) ∧
    (parse_decimal "" = .ok Decimal.zero ∧ Decimal.zero.toRat = 0) ∧
    (∀ (row : List String) (profile : CsvProfile) (debit : String),
      profile.amount_column = none →
      profile.negate_amounts = false →
      ((profile.debit_column.bind (fun c => row.get? c)).map trimStr).getD "" = debit →
      debit ≠ "" →
      ((profile.credit_column.bind (fun c => row.get? c)).map trimStr).getD "" = "" →
      parse_amount row profile = (parse_decimal debit).map (fun v => -v.abs)) ∧
    (∀ (row : List String) (profile : CsvProfile) (credit : String),
      profile.amount_column = none →
      profile.negate_amounts = false →
      ((profile.debit_column.bind (fun c => row.get? c)).map trimStr).getD "" = "" →
      ((profile.credit_column.bind (fun c => row.get? c)).map trimStr).getD "" = credit →
      credit ≠ "" →
      parse_amount row profile = (parse_decimal credit).map Decimal.abs) ∧
    (∀ (row : List String) (profile : CsvProfile),
      profile.amount_column = none →
      ((profile.debit_column.bind (fun c => row.get? c)).map trimStr).getD "" = "" →
      ((profile.credit_column.bind (fun c => row.get? c)).map trimStr).getD "" = "" →
      parse_amount row profile = .ok Decimal.zero) ∧
    (∀ (row : List String) (profile : CsvProfile),
      parse_amount row { profile with negate_amounts := true }
        = (parse_amount row { profile with negate_amounts := false }).map (fun v => -v)) := by
  refine ⟨⟨rfl, by norm_num [Decimal.toRat]⟩, ⟨rfl, by norm_num [Decimal.toRat]⟩,
    ⟨rfl, by norm_num [Decimal.toRat, Decimal.zero]⟩, ?_, ?_, ?_, ?_⟩
  · intro row profile debit hA hN hD hne _
    have hE : (!debit.isEmpty) = true := by
      rcases hb : debit.isEmpty
      · rfl
      · exact absurd ((String.isEmpty_iff debit).mp hb) hne
    simp only [parse_amount, hA]
    rw [hD, if_pos hE, hN]
    cases parse_decimal debit <;> rfl
  · intro row profile credit hA hN hD hC hne
    have hE : (!credit.isEmpty) = true := by
      rcases hb : credit.isEmpty
      · rfl
      · exact absurd ((String.isEmpty_iff credit).mp hb) hne
    simp only [parse_amount, hA]
    rw [hD, hC, if_neg (by decide), if_pos hE, hN]
    cases parse_decimal credit <;> rfl
  · intro row profile hA hD hC
    simp only [parse_amount, hA]
    rw [hD, hC, if_neg (by decide), if_neg (by decide)]
    cases profile.negate_amounts <;> rfl
  · intro row profile
    rcases profile with ⟨nm, dc, dsc, ac, dbc, crc, df, hh, sr, na, ica⟩
    simp only [parse_amount]
    cases ac with
    | some c =>
      dsimp only
      cases parse_decimal ((Option.map trimStr (row.get? c)).getD "") <;> rfl
    | none =>
      dsimp only
      by_cases hd : (!((Option.map trimStr (dbc.bind fun c => row.get? c)).getD "").isEmpty) = true
      · rw [if_pos hd, if_pos hd]
        cases parse_decimal ((Option.map trimStr (dbc.bind fun c => row.get? c)).getD "") <;> rfl
      · rw [if_neg hd, if_neg hd]
        by_cases hc : (!((Option.map trimStr (crc.bind fun c => row.get? c)).getD "").isEmpty) = true
        · rw [if_pos hc, if_pos hc]
          cases parse_decimal ((Option.map trimStr (crc.bind fun c => row.get? c)).getD "") <;> rfl
        · rw [if_neg hc, if_neg hc]
          rfl

/-- C5 witness: the conventions evaluated at the specification's own
examples, through `c5_amount_parsing_conventions`. -/
theorem c5_amount_parsing_conventions_witness :
    parse_amount ["01/15/2024", "Coffee", "4.50", ""]
        { CsvProfile.default with
            amount_column := none, debit_column := some 2, credit_column := some 3 }
      = .ok ⟨-450, 2⟩ ∧
    parse_amount ["01/15/2024", "Deposit", "", "1000.00"]
        { CsvProfile.default with
            amount_column := none, debit_column := some 2, credit_column := some 3 }
      = .ok ⟨100000, 2⟩ ∧
    parse_amount ["01/15/2024", "Something", "", ""]
        { CsvProfile.default with
            amount_column := none, debit_column := some 2, credit_column := some 3 }
      = .ok Decimal.zero ∧
    parse_amount ["01/15/2024", "Coffee", "4.50"]
        { CsvProfile.default with negate_amounts := true }
      = .ok ⟨-450, 2⟩ := by
  have h := c5_amount_parsing_conventions
  refine ⟨(h.2.2.2.1 ["01/15/2024", "Coffee", "4.50", ""]
      { CsvProfile.default with
          amount_column := none, debit_column := some 2, credit_column := some 3 }
      "4.50" rfl rfl rfl (by decide) rfl).trans rfl,
    (h.2.2.2.2.1 ["01/15/2024", "Deposit", "", "1000.00"]
      { CsvProfile.default with
          amount_column := none, debit_column := some 2, credit_column := some 3 }
      "1000.00" rfl rfl rfl rfl (by decide)).trans rfl,
    h.2.2.2.2.2.1 ["01/15/2024", "Something", "", ""]
      { CsvProfile.default with
          amount_column := none, debit_column := some 2, credit_column := some 3 }
      rfl rfl rfl,
    ((h.2.2.2.2.2.2 ["01/15/2024", "Coffee", "4.50"] CsvProfile.default).trans rfl)⟩

/-- C9: when both the debit and the credit cell of a row are non-blank,
`parse_amount` resolves the amount from the debit column as `-abs(debit)`;
the credit value does not influence the result (it is universally
quantified here and absent from the conclusion). -/
theorem c9_debit_wins_when_both_populated
    (row : List String) (profile : CsvProfile) (debit credit : String)
    (hA : profile.amount_column = none)
    (hN : profile.negate_amounts = false)
    (hD : ((profile.debit_column.bind (fun c => row.get? c)).map trimStr).getD "" = debit)
    (hne : debit ≠ "")
    (hC : ((profile.credit_column.bind (fun c => row.get? c)).map trimStr).getD "" = credit)
    (hcne : credit ≠ "") :
    parse_amount row profile = (parse_decimal debit).map (fun v => -v.abs) := by
  have hE : (!debit.isEmpty) = true := by
    rcases hb : debit.isEmpty
    · rfl
    · exact absurd ((String.isEmpty_iff debit).mp hb) hne
  simp only [parse_amount, hA]
  rw [hD, if_pos hE, hN]
  cases parse_decimal debit <;> rfl

/-- C9 witness: a row whose debit cell is `"4.50"` and whose credit cell is
`"1000.00"` resolves to `-4.50`. -/
theorem c9_debit_wins_when_both_populated_witness :
    parse_amount ["01/15/2024", "Coffee", "4.50", "1000.00"]
        { CsvProfile.default with
            amount_column := none, debit_column := some 2, credit_column := some 3 }
      = .ok ⟨-450, 2⟩ :=
  (c9_debit_wins_when_both_populated ["01/15/2024", "Coffee", "4.50", "1000.00"]
    { CsvProfile.default with
        amount_column := none, debit_column := some 2, credit_column := some 3 }
    "4.50" "1000.00" rfl rfl rfl (by decide) rfl (by decide)).trans rfl

/-- C8: assigning a category in the wizard updates `category_id` on exactly
those batch transactions whose `original_description` equals the current
description and whose `category_id` is still unset, and leaves every other
transaction and every other field of the affected transactions unchanged. -/
theorem c8_wizard_assignment_exact_and_frame (descs : List (String × Nat)) (idx : Nat)
    (catId : Int) (txns : List Transaction) (desc : String) (n : Nat)
    (hidx : descs.get? idx = some (desc, n)) :
    (apply_category_to_current descs idx catId txns).length = txns.length ∧
    ∀ (j : Nat) (t : Transaction), txns.get? j = some t →
      ∃ t', (apply_category_to_current descs idx catId txns).get? j = some t' ∧
        t'.category_id = (if t.original_description = desc ∧ t.category_id = none
          then some catId else t.category_id) ∧
        t'.id = t.id ∧ t'.account_id = t.account_id ∧ t'.date = t.date ∧
        t'.description = t.description ∧
        t'.original_description = t.original_description ∧ t'.amount = t.amount ∧
        t'.notes = t.notes ∧ t'.is_transfer = t.is_transfer ∧
        t'.import_hash = t.import_hash ∧ t'.created_at = t.created_at := by
  unfold apply_category_to_current
  rw [hidx]
  constructor
  · exact List.length_map _ _
  · intro j t ht
    rw [List.get?_map, ht]
    by_cases h : t.original_description = desc ∧ t.category_id = none
    · exact ⟨{ t with category_id := some catId }, by simp [h], by simp [h],
        rfl, rfl, rfl, rfl, rfl, rfl, rfl, rfl, rfl, rfl⟩
    · exact ⟨t, by simp [h], by simp [h],
        rfl, rfl, rfl, rfl, rfl, rfl, rfl, rfl, rfl, rfl⟩

/-- C8 witness: on a batch with a matching uncategorized transaction, the
assignment produced by `apply_category_to_current` sets its category to the
chosen id while keeping its amount. -/
theorem c8_wizard_assignment_exact_and_frame_witness :
    ∃ t', (apply_category_to_current [("Coffee", 2)] 0 7
        [demoTxn "Coffee" none, demoTxn "Tea" none, demoTxn "Coffee" (some 5)]).get? 0
      = some t' ∧ t'.category_id = some 7 ∧ t'.amount = (demoTxn "Coffee" none).amount := by
  obtain ⟨t', h1, h2, _, _, _, _, _, h3, _, _, _, _⟩ :=
    (c8_wizard_assignment_exact_and_frame [("Coffee", 2)] 0 7
      [demoTxn "Coffee" none, demoTxn "Tea" none, demoTxn "Coffee" (some 5)]
      "Coffee" 2 rfl).2 0 (demoTxn "Coffee" none) rfl
  refine ⟨t', h1, ?_, h3⟩
  simpa [demoTxn] using h2

/-- C10: for a non-empty CSV preview input (the first record of a non-empty
file always has at least one field), `preview` returns a non-empty header
list — the first row itself exactly when all of its fields fail the
decimal and date tests, and fabricated `"Column i"` names with all rows
kept as data otherwise — so `detect_bank_format` applied to preview output
can never return the Wells Fargo profile, whose fingerprint requires an
empty header list. -/
theorem c10_preview_headers_never_empty :
    ∀ (first_row : List String) (rest : List (List String)),
      first_row ≠ [] →
      ∃ headers dataRows,
        CsvImporter.preview (first_row :: rest) = .ok (headers, dataRows) ∧
        headers ≠ [] ∧
        (first_row.all looksLikeHeaderField = true → headers = first_row ∧ dataRows = rest) ∧
        (first_row.all looksLikeHeaderField = false →
          headers = (List.range first_row.length).map (fun i => "Column " ++ toString (i + 1)) ∧
          dataRows = first_row :: rest) ∧
        (∀ (r : List String) (p : CsvProfile),
          detect_bank_format headers r = some p → p.name ≠ "Wells Fargo") := by
  intro first_row rest hne
  by_cases hall : first_row.all looksLikeHeaderField = true
  · refine ⟨first_row, rest, ?_, hne, fun _ => ⟨rfl, rfl⟩,
      fun hf => absurd hall (by simp [hf]), fun r p h => detect_not_wellsfargo _ _ hne p h⟩
    simp [CsvImporter.preview, hall]
  · have hBool : first_row.all looksLikeHeaderField = false := by
      cases hx : first_row.all looksLikeHeaderField
      · rfl
      · exact absurd hx hall
    have hheaders :
        (List.range first_row.length).map (fun i => "Column " ++ toString (i + 1)) ≠ [] := by
      intro hx
      have hlen := congrArg List.length hx
      simp at hlen
      exact hne hlen
    refine ⟨_, _, ?_, hheaders, fun ht => absurd ht hall, fun _ => ⟨rfl, rfl⟩,
      fun r p h => detect_not_wellsfargo _ _ hheaders p h⟩
    simp [CsvImporter.preview, hBool]

/-- C10 witness: preview of a headered file and of a headerless Wells
Fargo-style file both yield non-empty header lists. -/
theorem c10_preview_headers_never_empty_witness :
    (∃ headers dataRows,
      CsvImporter.preview [["Date", "Description", "Amount"], ["01/15/2024", "Coffee", "-4.50"]]
        = .ok (headers, dataRows) ∧ headers ≠ []) ∧
    (∃ headers dataRows,
      CsvImporter.preview [["01/15/2024", "-4.50", "*", "123", "COFFEE SHOP"]]
        = .ok (headers, dataRows) ∧ headers ≠ []) := by
  constructor
  · obtain ⟨h, d, h1, h2, -, -, -⟩ := c10_preview_headers_never_empty
      ["Date", "Description", "Amount"] [["01/15/2024", "Coffee", "-4.50"]] (by decide)
    exact ⟨h, d, h1, h2⟩
  · obtain ⟨h, d, h1, h2, -, -, -⟩ := c10_preview_headers_never_empty
      ["01/15/2024", "-4.50", "*", "123", "COFFEE SHOP"] [] (by decide)
    exact ⟨h, d, h1, h2⟩

/-- The fallback loop of `parse_date` is the first-hit search over the
fallback format list. -/
lemma tryFallbacks_eq_findSome (s : String) (fs : List String) :
    tryFallbacks s fs = fs.findSome? (fun f => naiveDateParse s f) := by
  induction fs with
  | nil => rfl
  | cons f rest ih =>
    simp only [tryFallbacks, List.findSome?_cons]
    cases naiveDateParse s f <;> simp [ih]

/-- `parse_date` is the first-hit search over the profile format followed by
the fixed fallback formats, in order. -/
lemma parse_date_eq (s fmt : String) :
    parse_date s fmt
      = match (fmt :: fallbackFormats).findSome? (fun f => naiveDateParse s f) with
        | some d => .ok d
        | none => .error ("Could not parse date: " ++ s) := by
  simp only [parse_date, List.findSome?_cons]
  cases naiveDateParse s fmt
  · simp [tryFallbacks_eq_findSome]
  · simp

/-- Every error escaping the row loop is a row-indexed message naming the
1-based number of a row within bounds. -/
lemma parseRows_error_shape (profile : CsvProfile) (aid : Int) (now : String) :
    ∀ (rows : List (List String)) (i : Nat) (e : String),
      parseRows profile aid now i rows = .error e →
      ∃ j, i ≤ j ∧ j < i + rows.length ∧
        ((∃ d, e = "Row " ++ toString (j + 1) ++ ": failed to parse date '" ++ d ++ "'") ∨
          e = "Row " ++ toString (j + 1) ++ ": failed to parse amount") := by
  intro rows
  induction rows with
  | nil =>
    intro i e h
    simp [parseRows] at h
  | cons row rest ih =>
    intro i e h
    simp only [parseRows] at h
    by_cases hskip : i < profile.skip_rows
    · rw [if_pos hskip] at h
      obtain ⟨j, hj1, hj2, hj3⟩ := ih (i + 1) e h
      exact ⟨j, by omega, by simp only [List.length_cons]; omega, hj3⟩
    · rw [if_neg hskip] at h
      by_cases hblank : (((row.get? profile.date_column).map trimStr).getD "").isEmpty = true
      · rw [if_pos hblank] at h
        obtain ⟨j, hj1, hj2, hj3⟩ := ih (i + 1) e h
        exact ⟨j, by omega, by simp only [List.length_cons]; omega, hj3⟩
      · rw [if_neg hblank] at h
        cases hd : parse_date (((row.get? profile.date_column).map trimStr).getD "")
            profile.date_format with
        | error msg =>
          rw [hd] at h
          cases h
          exact ⟨i, le_refl i, by simp only [List.length_cons]; omega, .inl ⟨_, rfl⟩⟩
        | ok date =>
          rw [hd] at h
          cases ha : parse_amount row profile with
          | error msg2 =>
            rw [ha] at h
            cases h
            exact ⟨i, le_refl i, by simp only [List.length_cons]; omega, .inr rfl⟩
          | ok amount =>
            rw [ha] at h
            have hrec : parseRows profile aid now (i + 1) rest = .error e := by
              cases hr : parseRows profile aid now (i + 1) rest with
              | error e2 =>
                rw [hr] at h
                cases h
                rfl
              | ok ts =>
                rw [hr] at h
                cases h
            obtain ⟨j, hj1, hj2, hj3⟩ := ih (i + 1) e hrec
            exact ⟨j, by omega, by simp only [List.length_cons]; omega, hj3⟩

/-- A row whose trimmed date cell is blank contributes neither a
transaction nor an error: the loop moves on to the next row. -/
lemma parseRows_blank_skip (profile : CsvProfile) (aid : Int) (now : String)
    (i : Nat) (row : List String) (rest : List (List String))
    (hB : ((row.get? profile.date_column).map trimStr).getD "" = "") :
    parseRows profile aid now i (row :: rest) = parseRows profile aid now (i + 1) rest := by
  simp only [parseRows]
  by_cases hskip : i < profile.skip_rows
  · rw [if_pos hskip]
  · rw [if_neg hskip, hB, if_pos (show ("" : String).isEmpty = true from by decide)]

/-- A file of rows whose date cells are all blank parses to the empty
transaction list without error. -/
lemma parseRows_all_blank (profile : CsvProfile) (aid : Int) (now : String) :
    ∀ (rows : List (List String)),
      (∀ row ∈ rows, ((row.get? profile.date_column).map trimStr).getD "" = "") →
      ∀ i, parseRows profile aid now i rows = .ok [] := by
  intro rows
  induction rows with
  | nil => intro _ i; rfl
  | cons row rest ih =>
    intro hb i
    rw [parseRows_blank_skip _ _ _ _ _ _ (hb row (by simp))]
    exact ih (fun r hr => hb r (by simp [hr])) (i + 1)

/-- C6: date parsing tries the profile's format first and then the fixed
fallback formats in order (`parse_date` equals the first-hit search over
that ordered list); a parse failure surfaces as an error message carrying
the 1-based number of an in-bounds row; and a row whose trimmed date cell
is blank is skipped, producing neither a transaction nor an error. -/
theorem c6_date_fallback_order_and_row_errors :
    (∀ (s fmt : String),
      parse_date s fmt
        = match (fmt :: fallbackFormats).findSome? (fun f => naiveDateParse s f) with
          | some d => .ok d
          | none => .error ("Could not parse date: " ++ s)) ∧
    (∀ (rows : List (List String)) (profile : CsvProfile) (aid : Int) (now e : String),
      CsvImporter.parse rows profile aid now = .error e →
      ∃ j, j < rows.length ∧
        ((∃ d, e = "Row " ++ toString (j + 1) ++ ": failed to parse date '" ++ d ++ "'") ∨
          e = "Row " ++ toString (j + 1) ++ ": failed to parse amount")) ∧
    (∀ (profile : CsvProfile) (aid : Int) (now : String) (i : Nat) (row : List String)
        (rest : List (List String)),
      ((row.get? profile.date_column).map trimStr).getD "" = "" →
      parseRows profile aid now i (row :: rest) = parseRows profile aid now (i + 1) rest) ∧
    (∀ (rows : List (List String)) (profile : CsvProfile) (aid : Int) (now : String),
      (∀ row ∈ rows, ((row.get? profile.date_column).map trimStr).getD "" = "") →
      CsvImporter.parse rows profile aid now = .ok []) := by
  refine ⟨parse_date_eq, ?_, parseRows_blank_skip, ?_⟩
  · intro rows profile aid now e h
    obtain ⟨j, hj1, hj2, hj3⟩ := parseRows_error_shape profile aid now rows 0 e h
    exact ⟨j, by omega, hj3⟩
  · intro rows profile aid now hb
    exact parseRows_all_blank profile aid now rows hb 0

/-- C6 witness: a file whose second row has the unparseable date `"nope"`
fails with the row-2 message; a blank-date row is skipped; an all-blank
file parses to `[]`; and the profile's own format parses first. -/
theorem c6_date_fallback_order_and_row_errors_witness :
    (∃ j, j < 2 ∧
      ((∃ d, "Row 2: failed to parse date 'nope'"
          = "Row " ++ toString (j + 1) ++ ": failed to parse date '" ++ d ++ "'") ∨
        "Row 2: failed to parse date 'nope'"
          = "Row " ++ toString (j + 1) ++ ": failed to parse amount")) ∧
    parseRows CsvProfile.default 1 "now" 0 [["", "x", "1"], ["01/15/2024", "Coffee", "-4.50"]]
      = parseRows CsvProfile.default 1 "now" 1 [["01/15/2024", "Coffee", "-4.50"]] ∧
    CsvImporter.parse [["", "", ""]] CsvProfile.default 1 "now" = .ok [] ∧
    parse_date "2024-01-15" "%m/%d/%Y" = .ok ⟨2024, 1, 15⟩ := by
  have h := c6_date_fallback_order_and_row_errors
  exact ⟨h.2.1 [["01/15/2024", "a", "1.00"], ["nope", "b", "2.00"]]
      CsvProfile.default 1 "now" _ rfl,
    h.2.2.1 CsvProfile.default 1 "now" 0 ["", "x", "1"]
      [["01/15/2024", "Coffee", "-4.50"]] rfl,
    h.2.2.2 [["", "", ""]] CsvProfile.default 1 "now" (by decide),
    (h.1 "2024-01-15" "%m/%d/%Y").trans rfl⟩

lemma mem_firstSeen_aux :
    ∀ (n : Nat) (l : List String), l.length ≤ n → ∀ x, (x ∈ firstSeen l ↔ x ∈ l) := by
  intro n
  induction n with
  | zero =>
    intro l hl x
    cases l with
    | nil => simp [firstSeen]
    | cons a t => simp at hl
  | succ n ih =>
    intro l hl x
    cases l with
    | nil => simp [firstSeen]
    | cons a t =>
      simp only [firstSeen, List.mem_cons]
      rw [ih (t.filter (fun x => x ≠ a)) (le_trans (List.length_filter_le _ _)
        (Nat.le_of_succ_le_succ hl)) x]
      by_cases hxa : x = a
      · simp [hxa]
      · simp [hxa, List.mem_filter]

lemma nodup_firstSeen_aux :
    ∀ (n : Nat) (l : List String), l.length ≤ n → (firstSeen l).Nodup := by
  intro n
  induction n with
  | zero =>
    intro l hl
    cases l with
    | nil => simp [firstSeen]
    | cons a t => simp at hl
  | succ n ih =>
    intro l hl
    cases l with
    | nil => simp [firstSeen]
    | cons a t =>
      have hlen : (t.filter (fun x => x ≠ a)).length ≤ n :=
        le_trans (List.length_filter_le _ _) (Nat.le_of_succ_le_succ hl)
      simp only [firstSeen, List.nodup_cons]
      refine ⟨fun hmem => ?_, ih _ hlen⟩
      have := (mem_firstSeen_aux n _ hlen a).mp hmem
      simp [List.mem_filter] at this

lemma mem_firstSeen (l : List String) (x : String) : x ∈ firstSeen l ↔ x ∈ l :=
  mem_firstSeen_aux l.length l (le_refl _) x

lemma nodup_firstSeen (l : List String) : (firstSeen l).Nodup :=
  nodup_firstSeen_aux l.length l (le_refl _)

lemma firstSeen_append_aux :
    ∀ (n : Nat) (p : List String) (d : String), p.length ≤ n →
      firstSeen (p ++ [d]) = if d ∈ p then firstSeen p else firstSeen p ++ [d] := by
  intro n
  induction n with
  | zero =>
    intro p d hp
    cases p with
    | nil => simp [firstSeen]
    | cons a t => simp at hp
  | succ n ih =>
    intro p d hp
    cases p with
    | nil => simp [firstSeen]
    | cons a p' =>
      simp only [List.cons_append, firstSeen, List.filter_append]
      by_cases had : d = a
      · subst had
        have h1 : [d].filter (fun x => x ≠ d) = [] := by simp
        rw [h1, List.append_nil, if_pos (by simp)]
      · have h1 : [d].filter (fun x => x ≠ a) = [d] := by simp [had]
        rw [h1, ih (p'.filter (fun x => x ≠ a)) d
          (le_trans (List.length_filter_le _ _) (Nat.le_of_succ_le_succ hp))]
        by_cases hdp : d ∈ p'
        · have hmem : d ∈ p'.filter (fun x => x ≠ a) :=
            List.mem_filter.mpr ⟨hdp, by simp [had]⟩
          rw [if_pos hmem, if_pos (by simp [hdp])]
        · have hmem : d ∉ p'.filter (fun x => x ≠ a) :=
            fun hx => hdp (List.mem_filter.mp hx).1
          rw [if_neg hmem, if_neg (by simp [had, hdp])]

lemma firstSeen_append (p : List String) (d : String) :
    firstSeen (p ++ [d]) = if d ∈ p then firstSeen p else firstSeen p ++ [d] :=
  firstSeen_append_aux p.length p d (le_refl _)

lemma assocFind_map (L : List String) (f : String → Nat) (d : String) :
    assocFind (L.map (fun x => (x, f x))) d = if d ∈ L then some (f d) else none := by
  induction L with
  | nil => rfl
  | cons a t ih =>
    simp only [List.map_cons, assocFind]
    by_cases h : a = d
    · subst h
      simp
    · rw [if_neg h, ih]
      by_cases hm : d ∈ t
      · rw [if_pos hm, if_pos (by simp [hm])]
      · rw [if_neg hm, if_neg (by simp [hm]; exact Ne.symm h)]

lemma assocSet_map (L : List String) (f : String → Nat) (d : String) (v : Nat)
    (hnd : L.Nodup) :
    assocSet (L.map (fun x => (x, f x))) d v
      = L.map (fun x => (x, if x = d then v else f x)) := by
  induction L with
  | nil => rfl
  | cons a t ih =>
    simp only [List.map_cons, assocSet]
    by_cases h : a = d
    · subst h
      rw [if_pos rfl, if_pos rfl]
      have hnotin : a ∉ t := (List.nodup_cons.mp hnd).1
      have : ∀ x ∈ t, ((x, if x = a then v else f x) : String × Nat) = (x, f x) := by
        intro x hx
        have : x ≠ a := fun he => hnotin (he ▸ hx)
        simp [this]
      rw [List.map_congr_left this]
    · rw [if_neg h, if_neg h, ih (List.nodup_cons.mp hnd).2]

lemma stringStep_stateOf (p : List String) (d : String) :
    stringStep (countsOf p, firstSeen p) d = (countsOf (p ++ [d]), firstSeen (p ++ [d])) := by
  unfold stringStep countsOf
  dsimp only
  rw [assocFind_map, firstSeen_append]
  by_cases hd : d ∈ p
  · rw [if_pos ((mem_firstSeen p d).mpr hd), if_pos hd]
    dsimp only
    rw [assocSet_map _ _ _ _ (nodup_firstSeen p)]
    have hcg : ∀ x ∈ firstSeen p,
        ((x, if x = d then p.count d + 1 else p.count x) : String × Nat)
          = (x, (p ++ [d]).count x) := by
      intro x hx
      by_cases hxd : x = d
      · subst hxd
        simp [List.count_append]
      · simp [hxd, List.count_append, List.count_singleton', Ne.symm hxd]
    rw [List.map_congr_left hcg]
  · rw [if_neg (fun hx => hd ((mem_firstSeen p d).mp hx)), if_neg hd]
    dsimp only
    rw [List.map_append]
    congr 1
    · congr 1
      · refine List.map_congr_left (fun x hx => ?_)
        have hxd : x ≠ d := fun he => hd (he ▸ (mem_firstSeen p x).mp hx)
        simp [List.count_append, List.count_singleton', Ne.symm hxd]
      · simp [List.count_append, List.count_eq_zero_of_not_mem hd]

lemma foldl_stringStep_stateOf :
    ∀ (ds p : List String),
      ds.foldl stringStep (countsOf p, firstSeen p)
        = (countsOf (p ++ ds), firstSeen (p ++ ds)) := by
  intro ds
  induction ds with
  | nil => intro p; simp
  | cons d rest ih =>
    intro p
    simp only [List.foldl_cons]
    rw [stringStep_stateOf, ih (p ++ [d])]
    simp

lemma foldl_collectStep_eq (txns : List Transaction) :
    ∀ acc, txns.foldl collectStep acc
      = ((txns.filter (fun t => t.category_id = none)).map
          (fun t => t.original_description)).foldl stringStep acc := by
  induction txns with
  | nil => intro acc; rfl
  | cons t rest ih =>
    intro acc
    by_cases h : t.category_id = none
    · have hstep : collectStep acc t = stringStep acc t.original_description := by
        simp [collectStep, stringStep, h]
      simp [List.filter_cons, h, hstep, ih]
    · have hstep : collectStep acc t = acc := by
        simp [collectStep, h]
      simp [List.filter_cons, h, hstep, ih]

/-- C7: the wizard's description list is exactly the distinct
`original_description` values of the still-uncategorized transactions, in
first-seen order, each paired with the number of uncategorized transactions
sharing it; the first components are duplicate-free; and an empty
uncategorized residue yields the empty list with the categorize step
skipped (`prepare_categorize_step` returns `false`). -/
theorem c7_wizard_description_list (txns : List Transaction) :
    (prepare_categorize_step txns
      = (firstSeen ((txns.filter (fun t => t.category_id = none)).map
            (fun t => t.original_description))).map
          (fun d => (d, ((txns.filter (fun t => t.category_id = none)).map
            (fun t => t.original_description)).count d))) ∧
    ((prepare_categorize_step txns).map Prod.fst).Nodup ∧
    ((txns.filter (fun t => t.category_id = none)).map
        (fun t => t.original_description) = [] →
      prepare_categorize_step txns = [] ∧ prepareEnters txns = false) := by
  have hds : txns.foldl collectStep ([], [])
      = (countsOf ((txns.filter (fun t => t.category_id = none)).map
          (fun t => t.original_description)),
        firstSeen ((txns.filter (fun t => t.category_id = none)).map
          (fun t => t.original_description))) := by
    rw [foldl_collectStep_eq]
    have h0 := foldl_stringStep_stateOf
      ((txns.filter (fun t => t.category_id = none)).map (fun t => t.original_description)) []
    simpa [countsOf, firstSeen] using h0
  have hmain : prepare_categorize_step txns
      = (firstSeen ((txns.filter (fun t => t.category_id = none)).map
            (fun t => t.original_description))).map
          (fun d => (d, ((txns.filter (fun t => t.category_id = none)).map
            (fun t => t.original_description)).count d)) := by
    unfold prepare_categorize_step
    rw [hds]
    refine List.map_congr_left (fun d hd => ?_)
    rw [show countsOf ((txns.filter (fun t => t.category_id = none)).map
          (fun t => t.original_description))
        = (firstSeen ((txns.filter (fun t => t.category_id = none)).map
            (fun t => t.original_description))).map
          (fun x => (x, ((txns.filter (fun t => t.category_id = none)).map
            (fun t => t.original_description)).count x)) from rfl]
    rw [assocFind_map]
    rw [if_pos hd]
    rfl
  refine ⟨hmain, ?_, ?_⟩
  · rw [hmain, List.map_map]
    have : (Prod.fst ∘ fun d => (d, ((txns.filter (fun t => t.category_id = none)).map
        (fun t => t.original_description)).count d)) = id := rfl
    rw [this, List.map_id]
    exact nodup_firstSeen _
  · intro hempty
    have h1 : prepare_categorize_step txns = [] := by
      rw [hmain, hempty]
      simp [firstSeen]
    exact ⟨h1, by simp [prepareEnters, h1]⟩

/-- C7 witness: a batch with two uncategorized `"Coffee"` rows, one
uncategorized `"Tea"` row and one already-categorized row yields
`[("Coffee", 2), ("Tea", 1)]`; a fully categorized batch yields the empty
list and skips the wizard. -/
theorem c7_wizard_description_list_witness :
    prepare_categorize_step
        [demoTxn "Coffee" none, demoTxn "Coffee" none, demoTxn "Tea" none,
          demoTxn "Coffee" (some 5)]
      = [("Coffee", 2), ("Tea", 1)] ∧
    prepare_categorize_step [demoTxn "Coffee" (some 5)] = [] ∧
    prepareEnters [demoTxn "Coffee" (some 5)] = false := by
  have h1 := (c7_wizard_description_list [demoTxn "Coffee" none, demoTxn "Coffee" none, demoTxn "Tea" none,
    demoTxn "Coffee" (some 5)]).1
  have h2 := (c7_wizard_description_list [demoTxn "Coffee" (some 5)]).2.2 (by simp [demoTxn])
  refine ⟨h1.trans ?_, h2.1, h2.2⟩
  simp [demoTxn, firstSeen]

end Budgetui
